import Mathlib

/-!
Verification of the t-shirt retail agent (`src/main.py`) against its
natural-language specification.

The file shallowly embeds the order store and the four operations that touch
it: `generate_design` (the order-creation part, the external image call being
out of scope), `process_payment`, `get_order_status` and `process_refund`.
Python `float` amounts are modelled as exact rationals (`ℚ`); the amounts the
program manipulates (5.00, 4.99, …) are exactly representable so no float
rounding is observable in the modelled comparisons.  Python `dict` state is
modelled as an association list keyed by order id, and `datetime.now()`
timestamps are threaded as opaque string parameters.
-/

namespace TShirtAgent

/-- An HTTP error as raised by `HTTPException(status_code=..., detail=...)`. -/
structure HTTPError where
  status_code : Nat
  detail : String
deriving DecidableEq, Repr

/-- `HTTPException(status_code=404, detail="Order not found")`
(src/main.py lines 169, 244, 283). -/
def orderNotFoundError : HTTPError :=
  { status_code := 404, detail := "Order not found" }

/-- `HTTPException(status_code=400, detail=f"Amount exceeds maximum transaction
limit of $\x7bMAX_TRANSACTION_AMOUNT\x7d")` (src/main.py line 177); Python
formats the float `5.00` as `5.0`. -/
def amountExceedsLimitError : HTTPError :=
  { status_code := 400, detail := "Amount exceeds maximum transaction limit of $5.0" }

/-- `HTTPException(status_code=400, detail="Invalid payment method")`
(src/main.py line 190). -/
def invalidPaymentMethodError : HTTPError :=
  { status_code := 400, detail := "Invalid payment method" }

/-- `HTTPException(status_code=400, detail="Order has not been paid")`
(src/main.py line 288). -/
def orderNotPaidError : HTTPError :=
  { status_code := 400, detail := "Order has not been paid" }

/-- `MAX_TRANSACTION_AMOUNT = 5.00` (src/main.py line 48); written `5`, the
exact value of the float literal `5.00`. -/
def MAX_TRANSACTION_AMOUNT : ℚ := 5

/-- A Python billing address `Dict[str, str]`, as an association list. -/
abbrev BillingAddress := List (String × String)

/-- One record of `orders_db`.  The fields written at creation
(src/main.py lines 127-136) are plain; the fields only written later by
`process_payment` (lines 206-211) and `process_refund` (lines 291-293) are
`Option`, `none` meaning the dict key is absent.  `customer_name` and
`billing_address` are optional in the request, so a present key may still
hold Python `None`; no modelled behaviour distinguishes an absent key from a
key holding `None`, so both are `none` here. -/
structure Order where
  order_id : String
  design_prompt : String
  image_url : String
  image_data : String
  price : ℚ
  status : String
  created_at : String
  customer_email : Option String
  payment_id : Option String := none
  amount_paid : Option ℚ := none
  paid_at : Option String := none
  customer_name : Option String := none
  billing_address : Option BillingAddress := none
  refunded_at : Option String := none
  refund_reason : Option String := none
deriving DecidableEq, Repr

/-- The in-memory `orders_db` dict, as an association list in insertion
order. -/
abbrev OrdersDb := List (String × Order)

/-- Replace the record stored under `id` (Python mutates the dict entry in
place, which keeps its position). -/
def updateOrder (db : OrdersDb) (id : String) (o : Order) : OrdersDb :=
  db.map (fun p => if p.1 = id then (id, o) else p)

/-- Python `orders_db[order_id] = ...`: overwrite if the key exists, else
append (dict insertion order). -/
def insertOrder (db : OrdersDb) (id : String) (o : Order) : OrdersDb :=
  if (db.lookup id).isSome then updateOrder db id o else db ++ [(id, o)]

/-- Does `needle` occur at the head of `hay`?  (Character-list core of the
Python `in` operator on strings.) -/
def startsWithChars : List Char → List Char → Bool
  | [], _ => true
  | _ :: _, [] => false
  | a :: as, b :: bs => a = b && startsWithChars as bs

/-- Does `needle` occur contiguously anywhere in `hay`?  (Python
`needle in hay` on strings, over character lists.) -/
def hasSubstrChars (needle : List Char) : List Char → Bool
  | [] => startsWithChars needle []
  | hay@(_ :: rest) => startsWithChars needle hay || hasSubstrChars needle rest

/-- Python `s.lower()`: lower-case each character (the simple per-character
mapping agrees with Python on every string the program compares). -/
def pyLower (s : String) : List Char :=
  s.data.map Char.toLower

/-- `"bypass" in request.payment_method.lower()` (src/main.py line 176). -/
def containsBypass (payment_method : String) : Bool :=
  hasSubstrChars "bypass".data (pyLower payment_method)

/-- The body of a `PaymentRequest` (src/main.py lines 58-64). -/
structure PaymentRequest where
  order_id : String
  payment_method : String
  amount : ℚ
  billing_address : Option BillingAddress := none
  customer_name : Option String := none
deriving DecidableEq, Repr

/-- The JSON object returned by a successful `process_payment`
(src/main.py lines 215-223). -/
structure PaymentResponse where
  success : Bool
  order_id : String
  charge_id : String
  amount_charged : ℚ
  status : String
  message : String
  tracking_info : String
deriving DecidableEq, Repr

/-- `process_payment` (src/main.py lines 153-233): existence check, ceiling
check with the `"bypass"` override, token-length check, then the in-place
commit of the payment fields.  The mock charge never raises, so the
`stripe.error.CardError` branch is unreachable and not modelled.  On error the
db is untouched (the exception is raised before any mutation). -/
def process_payment (db : OrdersDb) (req : PaymentRequest) (now : String) :
    Except HTTPError (OrdersDb × PaymentResponse) :=
  match db.lookup req.order_id with
  | none => .error orderNotFoundError
  | some order =>
    if req.amount > MAX_TRANSACTION_AMOUNT ∧ containsBypass req.payment_method = false then
      .error amountExceedsLimitError
    else
      -- charge_amount = request.amount  (line 185; order["price"] is not consulted)
      let charge_amount := req.amount
      if req.payment_method.length < 4 then
        .error invalidPaymentMethodError
      else
        let charge_id := "ch_mock_" ++ req.order_id
        let order' : Order :=
          { order with
            status := "paid"
            payment_id := some charge_id
            amount_paid := some charge_amount
            paid_at := some now
            customer_name := req.customer_name
            billing_address := req.billing_address }
        .ok (updateOrder db req.order_id order',
          { success := true
            order_id := req.order_id
            charge_id := charge_id
            amount_charged := charge_amount
            status := "paid"
            message := "Payment successful! Your custom t-shirt will be printed and shipped."
            tracking_info := "Shipping information will be sent to your email." })

/-- The JSON object returned by `get_order_status` (src/main.py lines
249-259).  Note it is a fixed projection: `image_url`, `image_data`,
`customer_name`, `billing_address`, `refunded_at` and `refund_reason` are not
among the returned keys. -/
structure OrderStatusResponse where
  order_id : String
  status : String
  price : ℚ
  created_at : String
  design_prompt : String
  customer_email : Option String
  amount_paid : Option ℚ
  payment_id : Option String
  paid_at : Option String
deriving DecidableEq, Repr

/-- `get_order_status` (src/main.py lines 236-259). -/
def get_order_status (db : OrdersDb) (order_id : String) :
    Except HTTPError OrderStatusResponse :=
  match db.lookup order_id with
  | none => .error orderNotFoundError
  | some order =>
    .ok { order_id := order_id
          status := order.status
          price := order.price
          created_at := order.created_at
          design_prompt := order.design_prompt
          customer_email := order.customer_email
          amount_paid := order.amount_paid
          payment_id := order.payment_id
          paid_at := order.paid_at }

/-- The JSON object returned by a successful `process_refund`
(src/main.py lines 297-302). -/
structure RefundResponse where
  success : Bool
  order_id : String
  refund_amount : ℚ
  message : String
deriving DecidableEq, Repr

/-- `process_refund` (src/main.py lines 275-302): existence check, the
`status != "paid"` guard, then the in-place refund commit; the returned
`refund_amount` is `order.get("amount_paid", order["price"])` read from the
(already mutated) record, whose `amount_paid` and `price` the mutation does
not touch. -/
def process_refund (db : OrdersDb) (order_id : String) (reason : Option String)
    (now : String) : Except HTTPError (OrdersDb × RefundResponse) :=
  match db.lookup order_id with
  | none => .error orderNotFoundError
  | some order =>
    if order.status ≠ "paid" then
      .error orderNotPaidError
    else
      let order' : Order :=
        { order with
          status := "refunded"
          refunded_at := some now
          refund_reason := reason }
      .ok (updateOrder db order_id order',
        { success := true
          order_id := order_id
          refund_amount := order'.amount_paid.getD order'.price
          message := "Refund processed successfully" })

/-- The order record created by `generate_design` (src/main.py lines
122-136); the external image call and the base64 snapshot are taken as the
opaque inputs `image_url` and `image_data`. -/
def mkOrder (order_id design_prompt image_url image_data created_at : String)
    (customer_email : Option String) : Order :=
  { order_id := order_id
    design_prompt := design_prompt
    image_url := image_url
    image_data := image_data
    price := 4.99
    status := "pending_payment"
    created_at := created_at
    customer_email := customer_email }

/-- One state-changing request against the service, for reasoning about
sequences of operations. -/
inductive Op where
  | design (order_id design_prompt image_url image_data created_at : String)
      (customer_email : Option String)
  | pay (req : PaymentRequest) (now : String)
  | refund (order_id : String) (reason : Option String) (now : String)
deriving DecidableEq, Repr

/-- The effect of one request on `orders_db`: a failed payment or refund
raises before mutating, leaving the db unchanged. -/
def applyOp (db : OrdersDb) : Op → OrdersDb
  | .design order_id design_prompt image_url image_data created_at customer_email =>
      insertOrder db order_id
        (mkOrder order_id design_prompt image_url image_data created_at customer_email)
  | .pay req now =>
      match process_payment db req now with
      | .ok (db', _) => db'
      | .error _ => db
  | .refund order_id reason now =>
      match process_refund db order_id reason now with
      | .ok (db', _) => db'
      | .error _ => db

/-- A sequence of requests applied in order. -/
def applyOps (db : OrdersDb) (ops : List Op) : OrdersDb :=
  ops.foldl applyOp db

/-- An operation is a payment or a refund (no order creation). -/
def Op.isPayOrRefund : Op → Prop
  | .design _ _ _ _ _ _ => False
  | .pay _ _ => True
  | .refund _ _ _ => True

/-- The transition discipline §3 of the spec claims for `status`: stay put,
step forward one stage along `PendingPayment → Paid → Refunded`, or take the
single backward-adjacent `Paid → Refunded` edge (which is the forward step
from `Paid`); transcribed from the spec sentence for comparison with the
code's actual behaviour. -/
abbrev claimedStatusStep (old new : String) : Prop :=
  old = new ∨
  (old = "pending_payment" ∧ new = "paid") ∨
  (old = "paid" ∧ new = "refunded")

instance exceptDecEq {ε α : Type} [DecidableEq ε] [DecidableEq α] :
    DecidableEq (Except ε α)
  | .ok a, .ok b => by
      cases decEq a b with
      | isTrue h => exact isTrue (by rw [h])
      | isFalse h => exact isFalse (by intro hh; cases hh; exact h rfl)
  | .ok _, .error _ => isFalse (by intro h; cases h)
  | .error _, .ok _ => isFalse (by intro h; cases h)
  | .error e, .error f => by
      cases decEq e f with
      | isTrue h => exact isTrue (by rw [h])
      | isFalse h => exact isFalse (by intro hh; cases hh; exact h rfl)

/-! ### Helper lemmas about the store and the substring test -/

theorem lookup_cons_pair (k id : String) (v : Order) (rest : OrdersDb) :
    List.lookup id ((k, v) :: rest) =
      if id = k then some v else List.lookup id rest := by
  rw [List.lookup_cons, beq_eq_decide]
  by_cases h : id = k <;> simp [h]

theorem lookup_singleton (id : String) (o : Order) :
    List.lookup id [(id, o)] = some o := by
  rw [lookup_cons_pair]
  simp

theorem lookup_updateOrder_self (db : OrdersDb) (id : String) (o o' : Order)
    (h : db.lookup id = some o) : (updateOrder db id o').lookup id = some o' := by
  induction db with
  | nil => simp [List.lookup] at h
  | cons p rest ih =>
    rcases p with ⟨k, v⟩
    rw [lookup_cons_pair] at h
    by_cases hk : id = k
    · simp only [updateOrder, List.map, if_pos hk.symm]
      rw [lookup_cons_pair, if_pos rfl]
    · rw [if_neg hk] at h
      simp only [updateOrder, List.map]
      rw [if_neg (fun hh => hk hh.symm), lookup_cons_pair, if_neg hk]
      exact ih h

theorem lookup_updateOrder_ne (db : OrdersDb) (id id' : String) (o : Order)
    (h : id' ≠ id) : (updateOrder db id o).lookup id' = db.lookup id' := by
  induction db with
  | nil => simp [updateOrder]
  | cons p rest ih =>
    rcases p with ⟨k, v⟩
    by_cases hk : k = id
    · simp only [updateOrder, List.map, if_pos hk]
      rw [lookup_cons_pair, lookup_cons_pair, if_neg h, hk, if_neg h]
      exact ih
    · simp only [updateOrder, List.map, if_neg hk]
      rw [lookup_cons_pair, lookup_cons_pair]
      by_cases hk' : id' = k
      · rw [if_pos hk', if_pos hk']
      · rw [if_neg hk', if_neg hk']
        exact ih

theorem lookup_append_some (l₁ l₂ : OrdersDb) (id : String) (o : Order)
    (h : l₁.lookup id = some o) : (l₁ ++ l₂).lookup id = some o := by
  induction l₁ with
  | nil => simp [List.lookup] at h
  | cons p rest ih =>
    rcases p with ⟨k, v⟩
    rw [lookup_cons_pair] at h
    rw [List.cons_append, lookup_cons_pair]
    by_cases hk : id = k
    · rwa [if_pos hk] at h ⊢
    · rw [if_neg hk] at h ⊢
      exact ih h

theorem lookup_append_none (l₁ l₂ : OrdersDb) (id : String)
    (h : l₁.lookup id = none) : (l₁ ++ l₂).lookup id = l₂.lookup id := by
  induction l₁ with
  | nil => simp
  | cons p rest ih =>
    rcases p with ⟨k, v⟩
    rw [lookup_cons_pair] at h
    rw [List.cons_append, lookup_cons_pair]
    by_cases hk : id = k
    · rw [if_pos hk] at h
      cases h
    · rw [if_neg hk] at h ⊢
      exact ih h

theorem startsWithChars_length (n h : List Char) (hs : startsWithChars n h = true) :
    n.length ≤ h.length := by
  induction n generalizing h with
  | nil => simp
  | cons a as ih =>
    cases h with
    | nil => simp [startsWithChars] at hs
    | cons b bs =>
      simp only [startsWithChars, Bool.and_eq_true] at hs
      simpa using ih bs hs.2

theorem hasSubstrChars_length (h n : List Char) (hs : hasSubstrChars n h = true) :
    n.length ≤ h.length := by
  induction h with
  | nil => exact startsWithChars_length n [] hs
  | cons b bs ih =>
    simp only [hasSubstrChars, Bool.or_eq_true] at hs
    rcases hs with h1 | h2
    · exact startsWithChars_length n (b :: bs) h1
    · exact (ih h2).trans (by simp)

theorem containsBypass_length (s : String) (h : containsBypass s = true) :
    4 ≤ s.length := by
  have h6 := hasSubstrChars_length _ _ h
  simp only [pyLower, List.length_map] at h6
  cases s with
  | mk data =>
    have : ("bypass".data).length = 6 := by decide
    rw [this] at h6
    simpa [String.length] using le_trans (by omega : 4 ≤ 6) h6

theorem containsBypass_eq_false_of_short (s : String) (h : s.length < 4) :
    containsBypass s = false := by
  cases hb : containsBypass s with
  | false => rfl
  | true => exact absurd (containsBypass_length s hb) (by omega)

/-! ### Characterization lemmas for the operations -/

/-- The record `process_payment` commits over the found order. -/
def paymentCommit (o : Order) (req : PaymentRequest) (now : String) : Order :=
  { o with
    status := "paid"
    payment_id := some ("ch_mock_" ++ req.order_id)
    amount_paid := some req.amount
    paid_at := some now
    customer_name := req.customer_name
    billing_address := req.billing_address }

/-- The response `process_payment` returns on success. -/
def paymentOkResponse (req : PaymentRequest) : PaymentResponse :=
  { success := true
    order_id := req.order_id
    charge_id := "ch_mock_" ++ req.order_id
    amount_charged := req.amount
    status := "paid"
    message := "Payment successful! Your custom t-shirt will be printed and shipped."
    tracking_info := "Shipping information will be sent to your email." }

theorem process_payment_ok_of (db : OrdersDb) (req : PaymentRequest) (now : String)
    (o : Order) (h : db.lookup req.order_id = some o)
    (hc : ¬(req.amount > MAX_TRANSACTION_AMOUNT ∧ containsBypass req.payment_method = false))
    (hl : ¬req.payment_method.length < 4) :
    process_payment db req now =
      .ok (updateOrder db req.order_id (paymentCommit o req now), paymentOkResponse req) := by
  simp only [process_payment, h]
  rw [if_neg hc, if_neg hl]
  rfl

theorem process_payment_exceeds_of (db : OrdersDb) (req : PaymentRequest) (now : String)
    (o : Order) (h : db.lookup req.order_id = some o)
    (ha : req.amount > MAX_TRANSACTION_AMOUNT)
    (hb : containsBypass req.payment_method = false) :
    process_payment db req now = .error amountExceedsLimitError := by
  simp only [process_payment, h]
  rw [if_pos ⟨ha, hb⟩]

theorem process_payment_short_of (db : OrdersDb) (req : PaymentRequest) (now : String)
    (o : Order) (h : db.lookup req.order_id = some o)
    (hc : ¬(req.amount > MAX_TRANSACTION_AMOUNT ∧ containsBypass req.payment_method = false))
    (hl : req.payment_method.length < 4) :
    process_payment db req now = .error invalidPaymentMethodError := by
  simp only [process_payment, h]
  rw [if_neg hc, if_pos hl]

theorem process_payment_ok_inv (db : OrdersDb) (req : PaymentRequest) (now : String)
    (db' : OrdersDb) (resp : PaymentResponse)
    (h : process_payment db req now = .ok (db', resp)) :
    ∃ o, db.lookup req.order_id = some o ∧
      db' = updateOrder db req.order_id (paymentCommit o req now) ∧
      resp = paymentOkResponse req := by
  unfold process_payment at h
  cases hl : db.lookup req.order_id with
  | none => simp only [hl] at h; cases h
  | some o =>
    simp only [hl] at h
    by_cases hc : req.amount > MAX_TRANSACTION_AMOUNT ∧ containsBypass req.payment_method = false
    · rw [if_pos hc] at h; cases h
    · rw [if_neg hc] at h
      by_cases hlen : req.payment_method.length < 4
      · rw [if_pos hlen] at h; cases h
      · rw [if_neg hlen] at h
        refine ⟨o, rfl, ?_, ?_⟩ <;> cases h <;> rfl

/-- The record `process_refund` commits over the found order. -/
def refundCommit (o : Order) (reason : Option String) (now : String) : Order :=
  { o with
    status := "refunded"
    refunded_at := some now
    refund_reason := reason }

theorem process_refund_ok_of (db : OrdersDb) (id : String) (reason : Option String)
    (now : String) (o : Order) (h : db.lookup id = some o) (hp : o.status = "paid") :
    process_refund db id reason now =
      .ok (updateOrder db id (refundCommit o reason now),
        { success := true
          order_id := id
          refund_amount := o.amount_paid.getD o.price
          message := "Refund processed successfully" }) := by
  simp only [process_refund, h]
  rw [if_neg (by simp [hp])]
  rfl

theorem process_refund_notPaid_of (db : OrdersDb) (id : String) (reason : Option String)
    (now : String) (o : Order) (h : db.lookup id = some o) (hp : o.status ≠ "paid") :
    process_refund db id reason now = .error orderNotPaidError := by
  simp only [process_refund, h]
  rw [if_pos (by simp [hp])]

theorem process_refund_ok_inv (db : OrdersDb) (id : String) (reason : Option String)
    (now : String) (db' : OrdersDb) (resp : RefundResponse)
    (h : process_refund db id reason now = .ok (db', resp)) :
    ∃ o, db.lookup id = some o ∧ o.status = "paid" ∧
      db' = updateOrder db id (refundCommit o reason now) := by
  unfold process_refund at h
  cases hl : db.lookup id with
  | none => simp only [hl] at h; cases h
  | some o =>
    simp only [hl] at h
    by_cases hp : o.status = "paid"
    · rw [if_neg (by simp [hp])] at h
      refine ⟨o, rfl, hp, ?_⟩
      cases h
      rfl
    · rw [if_pos (by simp [hp])] at h
      cases h

/-! ### The claims -/

/-- C1: for every payment request whose order exists and which passes the
ceiling and token-length checks, the amount recorded on the order as charged
(`amount_paid`) and returned as `amount_charged` equals the caller-supplied
claimed amount, not the order's quoted price (the stored price is untouched);
in particular a payment with claimed amount strictly below the quoted price
(the quote itself within the ceiling) and a token of length ≥ 4 succeeds and
charges the claimed amount; and the quoted price is never cross-checked: the
engine's outcome is identical for any stored price. -/
theorem claim_C1_amount_trusts_client :
    (∀ (db : OrdersDb) (req : PaymentRequest) (now : String) (o : Order),
      db.lookup req.order_id = some o →
      ¬(req.amount > MAX_TRANSACTION_AMOUNT ∧ containsBypass req.payment_method = false) →
      4 ≤ req.payment_method.length →
      ∃ db' resp o',
        process_payment db req now = Except.ok (db', resp) ∧
        resp.amount_charged = req.amount ∧
        db'.lookup req.order_id = some o' ∧
        o'.amount_paid = some req.amount ∧
        o'.price = o.price) ∧
    (∀ (db : OrdersDb) (req : PaymentRequest) (now : String) (o : Order),
      db.lookup req.order_id = some o →
      req.amount < o.price →
      o.price ≤ MAX_TRANSACTION_AMOUNT →
      4 ≤ req.payment_method.length →
      ∃ db' resp,
        process_payment db req now = Except.ok (db', resp) ∧
        resp.success = true ∧ resp.amount_charged = req.amount) ∧
    (∀ (db : OrdersDb) (req : PaymentRequest) (now : String) (o : Order) (q : ℚ),
      db.lookup req.order_id = some o →
      (process_payment (updateOrder db req.order_id { o with price := q }) req now).map
          Prod.snd =
        (process_payment db req now).map Prod.snd) := by
  refine ⟨?_, ?_, ?_⟩
  · intro db req now o h hc hlen
    refine ⟨_, _, paymentCommit o req now,
      process_payment_ok_of db req now o h hc (by omega), rfl,
      lookup_updateOrder_self db _ o _ h, rfl, rfl⟩
  · intro db req now o h hlt hle hlen
    have hc : ¬(req.amount > MAX_TRANSACTION_AMOUNT ∧
        containsBypass req.payment_method = false) := by
      rintro ⟨hgt, -⟩
      exact absurd hgt (not_lt.mpr (le_of_lt (lt_of_lt_of_le hlt hle)))
    exact ⟨_, _, process_payment_ok_of db req now o h hc (by omega), rfl, rfl⟩
  · intro db req now o q h
    have h2 : (updateOrder db req.order_id { o with price := q }).lookup req.order_id =
        some { o with price := q } := lookup_updateOrder_self db _ o _ h
    by_cases hc : req.amount > MAX_TRANSACTION_AMOUNT ∧
        containsBypass req.payment_method = false
    · rw [process_payment_exceeds_of _ req now _ h2 hc.1 hc.2,
        process_payment_exceeds_of _ req now _ h hc.1 hc.2]
    · by_cases hlen : req.payment_method.length < 4
      · rw [process_payment_short_of _ req now _ h2 hc hlen,
          process_payment_short_of _ req now _ h hc hlen]
      · rw [process_payment_ok_of _ req now _ h2 hc hlen,
          process_payment_ok_of _ req now _ h hc hlen]
        rfl

/-- C1 witness: on a fresh 4.99-priced order, a payment claiming 0.01 with
token "card_4242" succeeds, charges 0.01 and leaves the stored price at
4.99. -/
theorem claim_C1_amount_trusts_client_witness :
    ∃ db' resp o',
      process_payment [("order-1", mkOrder "order-1" "a red fox" "u" "d" "t0" none)]
          { order_id := "order-1", payment_method := "card_4242", amount := 0.01 } "t1" =
        Except.ok (db', resp) ∧
      resp.amount_charged = 0.01 ∧
      db'.lookup "order-1" = some o' ∧
      o'.amount_paid = some 0.01 ∧
      o'.price = (mkOrder "order-1" "a red fox" "u" "d" "t0" none).price :=
  claim_C1_amount_trusts_client.1
    [("order-1", mkOrder "order-1" "a red fox" "u" "d" "t0" none)]
    { order_id := "order-1", payment_method := "card_4242", amount := 0.01 } "t1"
    (mkOrder "order-1" "a red fox" "u" "d" "t0" none) (lookup_singleton _ _)
    (by rintro ⟨hgt, -⟩; exact absurd hgt (by norm_num [MAX_TRANSACTION_AMOUNT]))
    (by decide)

/-- C2: a payment whose claimed amount strictly exceeds the 5.00 ceiling
succeeds whenever the method token (case-insensitively) contains the
substring "bypass", regardless of magnitude, and fails with the
amount-exceeds-limit error whenever it does not. -/
theorem claim_C2_bypass_marker_controls_ceiling :
    ∀ (db : OrdersDb) (req : PaymentRequest) (now : String) (o : Order),
      db.lookup req.order_id = some o →
      req.amount > MAX_TRANSACTION_AMOUNT →
      (containsBypass req.payment_method = true →
        ∃ db' resp, process_payment db req now = Except.ok (db', resp) ∧
          resp.success = true) ∧
      (containsBypass req.payment_method = false →
        process_payment db req now = Except.error amountExceedsLimitError) := by
  intro db req now o h ha
  constructor
  · intro hb
    have hc : ¬(req.amount > MAX_TRANSACTION_AMOUNT ∧
        containsBypass req.payment_method = false) := by
      rintro ⟨-, hf⟩
      rw [hb] at hf
      cases hf
    have hlen : ¬req.payment_method.length < 4 := by
      have := containsBypass_length req.payment_method hb
      omega
    exact ⟨_, _, process_payment_ok_of db req now o h hc hlen, rfl⟩
  · intro hb
    exact process_payment_exceeds_of db req now o h ha hb

/-- C2 witness: a 100.00 payment with token "bypass_anything" succeeds, while
the same payment with token "card_4242" fails with the amount-exceeds-limit
error. -/
theorem claim_C2_bypass_marker_controls_ceiling_witness :
    (∃ db' resp,
      process_payment [("order-1", mkOrder "order-1" "a red fox" "u" "d" "t0" none)]
          { order_id := "order-1", payment_method := "bypass_anything", amount := 100 }
          "t1" =
        Except.ok (db', resp) ∧ resp.success = true) ∧
    process_payment [("order-1", mkOrder "order-1" "a red fox" "u" "d" "t0" none)]
        { order_id := "order-1", payment_method := "card_4242", amount := 100 } "t1" =
      Except.error amountExceedsLimitError :=
  ⟨(claim_C2_bypass_marker_controls_ceiling
      [("order-1", mkOrder "order-1" "a red fox" "u" "d" "t0" none)]
      { order_id := "order-1", payment_method := "bypass_anything", amount := 100 } "t1"
      (mkOrder "order-1" "a red fox" "u" "d" "t0" none) (lookup_singleton _ _) (by decide)).1
    (by decide),
   (claim_C2_bypass_marker_controls_ceiling
      [("order-1", mkOrder "order-1" "a red fox" "u" "d" "t0" none)]
      { order_id := "order-1", payment_method := "card_4242", amount := 100 } "t1"
      (mkOrder "order-1" "a red fox" "u" "d" "t0" none) (lookup_singleton _ _) (by decide)).2
    (by decide)⟩

/-- C3: the payment engine checks no precondition on the order's current
status: for an existing order with ANY status value (the hypothesis places no
constraint on it — in particular "pending_payment", "paid" or "refunded"), a
request passing the ceiling and token-length checks succeeds and overwrites
the payment fields (`payment_id`, `amount_paid`, `paid_at`) with the values
of this payment. -/
theorem claim_C3_no_status_precondition :
    ∀ (db : OrdersDb) (req : PaymentRequest) (now : String) (o : Order),
      db.lookup req.order_id = some o →
      ¬(req.amount > MAX_TRANSACTION_AMOUNT ∧ containsBypass req.payment_method = false) →
      4 ≤ req.payment_method.length →
      ∃ db' resp o',
        process_payment db req now = Except.ok (db', resp) ∧
        resp.success = true ∧
        db'.lookup req.order_id = some o' ∧
        o'.status = "paid" ∧
        o'.payment_id = some ("ch_mock_" ++ req.order_id) ∧
        o'.amount_paid = some req.amount ∧
        o'.paid_at = some now := by
  intro db req now o h hc hlen
  exact ⟨_, _, paymentCommit o req now,
    process_payment_ok_of db req now o h hc (by omega), rfl,
    lookup_updateOrder_self db _ o _ h, rfl, rfl, rfl, rfl⟩

/-- C3 witness: a second payment against an order that is already "paid"
(with earlier payment fields recorded) reports success again and overwrites
`amount_paid` and `paid_at` with the new values. -/
theorem claim_C3_no_status_precondition_witness :
    ∃ db' resp o',
      process_payment
          [("order-1",
            { mkOrder "order-1" "a red fox" "u" "d" "t0" none with
              status := "paid"
              payment_id := some "ch_mock_order-1"
              amount_paid := some 3
              paid_at := some "t1" })]
          { order_id := "order-1", payment_method := "card_9999", amount := 2 } "t2" =
        Except.ok (db', resp) ∧
      resp.success = true ∧
      db'.lookup "order-1" = some o' ∧
      o'.status = "paid" ∧
      o'.payment_id = some "ch_mock_order-1" ∧
      o'.amount_paid = some 2 ∧
      o'.paid_at = some "t2" :=
  claim_C3_no_status_precondition
    [("order-1",
      { mkOrder "order-1" "a red fox" "u" "d" "t0" none with
        status := "paid"
        payment_id := some "ch_mock_order-1"
        amount_paid := some 3
        paid_at := some "t1" })]
    { order_id := "order-1", payment_method := "card_9999", amount := 2 } "t2"
    { mkOrder "order-1" "a red fox" "u" "d" "t0" none with
      status := "paid"
      payment_id := some "ch_mock_order-1"
      amount_paid := some 3
      paid_at := some "t1" }
    (lookup_singleton _ _) (by decide) (by decide)

/-- A concrete payment request reused by the C4 run. -/
def c4req : PaymentRequest :=
  { order_id := "order-1", payment_method := "card_4242", amount := 3 }

/-- Create an order, pay it, refund it. -/
def c4opsRefunded : List Op :=
  [Op.design "order-1" "a red fox" "http://img" "abc" "t0" none,
   Op.pay c4req "t1",
   Op.refund "order-1" (some "changed my mind") "t2"]

/-- The C4 run extended with a second payment against the refunded order. -/
def c4opsRepaid : List Op :=
  c4opsRefunded ++ [Op.pay c4req "t3"]

/-- C4 counterexample: a concrete sequence of service operations
(create, pay, refund, pay again) drives the order's status from "refunded"
back to "paid" — a backward transition that is not the Paid → Refunded edge,
so the claimed transition discipline is violated by the code. -/
theorem claim_C4_counterexample_refunded_to_paid :
    ((applyOps [] c4opsRefunded).lookup "order-1").map Order.status = some "refunded" ∧
    ((applyOps [] c4opsRepaid).lookup "order-1").map Order.status = some "paid" ∧
    ¬claimedStatusStep "refunded" "paid" := by
  exact ⟨by decide, by decide, by decide⟩

/-- C4 amended: `status` stays within the three values
"pending_payment"/"paid"/"refunded", and every single-step transition caused
by an operation (creation restricted to fresh ids, as the service generates
them) either leaves the status unchanged, sets it to "paid" (a payment —
possible from ANY previous status, including the backward
"refunded" → "paid" edge exhibited by the counterexample), or moves
"paid" → "refunded" (a refund).  The spec's claim that no transition goes
backward except Paid → Refunded fails only on the payment edge. -/
theorem claim_C4_amended_transitions :
    ∀ (db : OrdersDb) (op : Op) (id : String) (o o' : Order),
      (∀ oid p u d c e, op = Op.design oid p u d c e → db.lookup oid = none) →
      db.lookup id = some o →
      (applyOp db op).lookup id = some o' →
      (o'.status = o.status ∨ o'.status = "paid" ∨
        (o.status = "paid" ∧ o'.status = "refunded")) ∧
      ((o.status = "pending_payment" ∨ o.status = "paid" ∨ o.status = "refunded") →
        (o'.status = "pending_payment" ∨ o'.status = "paid" ∨ o'.status = "refunded")) := by
  intro db op id o o' hfresh h h'
  have main : o'.status = o.status ∨ o'.status = "paid" ∨
      (o.status = "paid" ∧ o'.status = "refunded") := by
    cases op with
    | design oid p u d c e =>
      have hnone := hfresh oid p u d c e rfl
      simp only [applyOp, insertOrder, hnone, Option.isSome_none, Bool.false_eq_true,
        if_false] at h'
      rw [lookup_append_some db _ id o h] at h'
      cases h'
      exact Or.inl rfl
    | pay req now =>
      simp only [applyOp] at h'
      cases hp : process_payment db req now with
      | error e =>
        rw [hp] at h'
        simp only [] at h'
        rw [h] at h'
        cases h'
        exact Or.inl rfl
      | ok r =>
        rcases r with ⟨db2, resp⟩
        rw [hp] at h'
        simp only [] at h'
        obtain ⟨u, hu, hdb2, -⟩ := process_payment_ok_inv db req now db2 resp hp
        subst hdb2
        by_cases hid : id = req.order_id
        · subst hid
          rw [lookup_updateOrder_self db _ u _ hu] at h'
          cases h'
          exact Or.inr (Or.inl rfl)
        · rw [lookup_updateOrder_ne db _ id _ hid] at h'
          rw [h] at h'
          cases h'
          exact Or.inl rfl
    | refund rid reason now =>
      simp only [applyOp] at h'
      cases hp : process_refund db rid reason now with
      | error e =>
        rw [hp] at h'
        simp only [] at h'
        rw [h] at h'
        cases h'
        exact Or.inl rfl
      | ok r =>
        rcases r with ⟨db2, resp⟩
        rw [hp] at h'
        simp only [] at h'
        obtain ⟨u, hu, hpaid, hdb2⟩ := process_refund_ok_inv db rid reason now db2 resp hp
        subst hdb2
        by_cases hid : id = rid
        · subst hid
          rw [lookup_updateOrder_self db _ u _ hu] at h'
          rw [h] at hu
          cases hu
          cases h'
          exact Or.inr (Or.inr ⟨hpaid, rfl⟩)
        · rw [lookup_updateOrder_ne db _ id _ hid] at h'
          rw [h] at h'
          cases h'
          exact Or.inl rfl
  refine ⟨main, ?_⟩
  intro hmem
  rcases main with he | hpd | ⟨-, hr⟩
  · rw [he]
    exact hmem
  · exact Or.inr (Or.inl hpd)
  · exact Or.inr (Or.inr hr)

/-- An order sitting in status "refunded", with integral amounts, used to
instantiate the amended C4 theorem concretely. -/
def c4RefundedOrder : Order :=
  { order_id := "order-1"
    design_prompt := "a red fox"
    image_url := "http://img"
    image_data := "abc"
    price := 4
    status := "refunded"
    created_at := "t0"
    customer_email := none
    payment_id := some "ch_mock_order-1"
    amount_paid := some 3
    paid_at := some "t1"
    refunded_at := some "t2"
    refund_reason := some "changed my mind" }

/-- C4 amended witness: paying the concrete refunded order steps its status
to "paid", which the amended transition discipline admits. -/
theorem claim_C4_amended_transitions_witness :
    ((paymentCommit c4RefundedOrder c4req "t3").status = c4RefundedOrder.status ∨
      (paymentCommit c4RefundedOrder c4req "t3").status = "paid" ∨
      (c4RefundedOrder.status = "paid" ∧
        (paymentCommit c4RefundedOrder c4req "t3").status = "refunded")) ∧
    ((c4RefundedOrder.status = "pending_payment" ∨ c4RefundedOrder.status = "paid" ∨
        c4RefundedOrder.status = "refunded") →
      ((paymentCommit c4RefundedOrder c4req "t3").status = "pending_payment" ∨
        (paymentCommit c4RefundedOrder c4req "t3").status = "paid" ∨
        (paymentCommit c4RefundedOrder c4req "t3").status = "refunded")) :=
  claim_C4_amended_transitions [("order-1", c4RefundedOrder)] (Op.pay c4req "t3")
    "order-1" c4RefundedOrder (paymentCommit c4RefundedOrder c4req "t3")
    (by intro oid p u d c e he; cases he)
    (lookup_singleton _ _)
    (by decide)

/-- C5 counterexample: a payment with a 3-character method token and a
claimed amount of 10 is rejected with the amount-exceeds-limit error, not the
invalid-payment-method error the claim names (the ceiling check runs first
and a token shorter than 4 characters can never contain the 6-character
override marker). -/
theorem claim_C5_counterexample_error_identity :
    process_payment [("order-1", mkOrder "order-1" "a red fox" "u" "d" "t0" none)]
        { order_id := "order-1", payment_method := "abc", amount := 10 } "t1" =
      Except.error amountExceedsLimitError ∧
    amountExceedsLimitError ≠ invalidPaymentMethodError := by
  exact ⟨by decide, by decide⟩

/-- C5 amended: a payment request against an existing order with a method
token shorter than 4 characters is always rejected and leaves the store
unchanged; the error is the invalid-payment-method error when the claimed
amount is within the 5.00 ceiling, but the amount-exceeds-limit error when
the amount exceeds the ceiling (the ceiling check precedes the length check,
and a token of length < 4 cannot contain the "bypass" marker). -/
theorem claim_C5_amended_short_token_rejected :
    ∀ (db : OrdersDb) (req : PaymentRequest) (now : String) (o : Order),
      db.lookup req.order_id = some o →
      req.payment_method.length < 4 →
      process_payment db req now =
        Except.error
          (if MAX_TRANSACTION_AMOUNT < req.amount then amountExceedsLimitError
            else invalidPaymentMethodError) ∧
      applyOp db (Op.pay req now) = db := by
  intro db req now o h hlen
  have hnb : containsBypass req.payment_method = false :=
    containsBypass_eq_false_of_short _ hlen
  by_cases ha : MAX_TRANSACTION_AMOUNT < req.amount
  · have he := process_payment_exceeds_of db req now o h ha hnb
    rw [if_pos ha]
    exact ⟨he, by simp only [applyOp, he]⟩
  · have hc : ¬(req.amount > MAX_TRANSACTION_AMOUNT ∧
        containsBypass req.payment_method = false) := by
      rintro ⟨hgt, -⟩
      exact ha hgt
    have he := process_payment_short_of db req now o h hc hlen
    rw [if_neg ha]
    exact ⟨he, by simp only [applyOp, he]⟩

/-- C5 amended witness: the token "abc" with amount 10 draws the
amount-exceeds-limit error, and with amount 2 the invalid-payment-method
error; the store is untouched both times. -/
theorem claim_C5_amended_short_token_rejected_witness :
    (process_payment [("order-1", c4RefundedOrder)]
        { order_id := "order-1", payment_method := "abc", amount := 10 } "t1" =
      Except.error amountExceedsLimitError ∧
      applyOp [("order-1", c4RefundedOrder)]
        (Op.pay { order_id := "order-1", payment_method := "abc", amount := 10 } "t1") =
        [("order-1", c4RefundedOrder)]) ∧
    (process_payment [("order-1", c4RefundedOrder)]
        { order_id := "order-1", payment_method := "abc", amount := 2 } "t1" =
      Except.error invalidPaymentMethodError ∧
      applyOp [("order-1", c4RefundedOrder)]
        (Op.pay { order_id := "order-1", payment_method := "abc", amount := 2 } "t1") =
        [("order-1", c4RefundedOrder)]) := by
  constructor
  · have h := claim_C5_amended_short_token_rejected [("order-1", c4RefundedOrder)]
      { order_id := "order-1", payment_method := "abc", amount := 10 } "t1"
      c4RefundedOrder (lookup_singleton _ _) (by decide)
    rwa [if_pos (by decide)] at h
  · have h := claim_C5_amended_short_token_rejected [("order-1", c4RefundedOrder)]
      { order_id := "order-1", payment_method := "abc", amount := 2 } "t1"
      c4RefundedOrder (lookup_singleton _ _) (by decide)
    rwa [if_neg (by decide)] at h

/-- C10: below or at the ceiling the override marker is never consulted: two
payment requests that agree on everything except their (≥ 4 character) method
tokens — in particular one containing "bypass" and one not — produce
identical results and identical stores; and an amount exactly equal to the
ceiling is accepted with a marker-free token. -/
theorem claim_C10_marker_unused_below_ceiling :
    (∀ (db : OrdersDb) (req₁ req₂ : PaymentRequest) (now : String),
      req₁.order_id = req₂.order_id →
      req₁.amount = req₂.amount →
      req₁.customer_name = req₂.customer_name →
      req₁.billing_address = req₂.billing_address →
      req₁.amount ≤ MAX_TRANSACTION_AMOUNT →
      4 ≤ req₁.payment_method.length →
      4 ≤ req₂.payment_method.length →
      process_payment db req₁ now = process_payment db req₂ now) ∧
    (∀ (db : OrdersDb) (req : PaymentRequest) (now : String) (o : Order),
      db.lookup req.order_id = some o →
      req.amount = MAX_TRANSACTION_AMOUNT →
      containsBypass req.payment_method = false →
      4 ≤ req.payment_method.length →
      ∃ db' resp, process_payment db req now = Except.ok (db', resp) ∧
        resp.success = true) := by
  constructor
  · intro db req₁ req₂ now hid hamt hname haddr hle hl1 hl2
    have hc1 : ¬(req₁.amount > MAX_TRANSACTION_AMOUNT ∧
        containsBypass req₁.payment_method = false) := by
      rintro ⟨hgt, -⟩
      exact absurd hle (not_le.mpr hgt)
    have hc2 : ¬(req₂.amount > MAX_TRANSACTION_AMOUNT ∧
        containsBypass req₂.payment_method = false) := by
      rintro ⟨hgt, -⟩
      rw [← hamt] at hgt
      exact absurd hle (not_le.mpr hgt)
    cases h : db.lookup req₁.order_id with
    | none =>
      have h2 : db.lookup req₂.order_id = none := by rwa [hid] at h
      simp only [process_payment, h, h2]
    | some o =>
      have h2 : db.lookup req₂.order_id = some o := by rwa [hid] at h
      rw [process_payment_ok_of db req₁ now o h hc1 (by omega),
        process_payment_ok_of db req₂ now o h2 hc2 (by omega)]
      simp only [paymentCommit, paymentOkResponse, updateOrder, hid, hamt, hname, haddr]
  · intro db req now o h heq hb hlen
    have hc : ¬(req.amount > MAX_TRANSACTION_AMOUNT ∧
        containsBypass req.payment_method = false) := by
      rintro ⟨hgt, -⟩
      rw [heq] at hgt
      exact lt_irrefl _ hgt
    exact ⟨_, _, process_payment_ok_of db req now o h hc (by omega), rfl⟩

/-- C10 witness: with amount 5 (exactly the ceiling), the tokens "card_4242"
and "has_bypass_inside" give the same result on the same store, and the
marker-free token is accepted. -/
theorem claim_C10_marker_unused_below_ceiling_witness :
    (process_payment [("order-1", c4RefundedOrder)]
        { order_id := "order-1", payment_method := "card_4242", amount := 5 } "t1" =
      process_payment [("order-1", c4RefundedOrder)]
        { order_id := "order-1", payment_method := "has_bypass_inside", amount := 5 }
        "t1") ∧
    (∃ db' resp,
      process_payment [("order-1", c4RefundedOrder)]
          { order_id := "order-1", payment_method := "card_4242", amount := 5 } "t1" =
        Except.ok (db', resp) ∧ resp.success = true) :=
  ⟨claim_C10_marker_unused_below_ceiling.1 [("order-1", c4RefundedOrder)]
      { order_id := "order-1", payment_method := "card_4242", amount := 5 }
      { order_id := "order-1", payment_method := "has_bypass_inside", amount := 5 } "t1"
      rfl rfl rfl rfl (by decide) (by decide) (by decide),
    claim_C10_marker_unused_below_ceiling.2 [("order-1", c4RefundedOrder)]
      { order_id := "order-1", payment_method := "card_4242", amount := 5 } "t1"
      c4RefundedOrder (lookup_singleton _ _) rfl (by decide) (by decide)⟩

/-- C6: a refund succeeds exactly when the order exists and its status is
exactly "paid": a missing id fails with the not-found error, and a refund on
any existing non-"paid" order (in particular "pending_payment" or an
already-"refunded" one) fails with the one order-not-paid error — a single
error value, so nothing distinguishes the two causes — leaving the store
unchanged. -/
theorem claim_C6_refund_requires_paid :
    ∀ (db : OrdersDb) (id : String) (reason : Option String) (now : String),
      (db.lookup id = none →
        process_refund db id reason now = Except.error orderNotFoundError) ∧
      (∀ o, db.lookup id = some o → o.status ≠ "paid" →
        process_refund db id reason now = Except.error orderNotPaidError ∧
        applyOp db (Op.refund id reason now) = db) ∧
      (∀ o, db.lookup id = some o → o.status = "paid" →
        ∃ db' resp, process_refund db id reason now = Except.ok (db', resp)) := by
  intro db id reason now
  refine ⟨?_, ?_, ?_⟩
  · intro h
    simp only [process_refund, h]
  · intro o h hne
    have he := process_refund_notPaid_of db id reason now o h hne
    exact ⟨he, by simp only [applyOp, he]⟩
  · intro o h hp
    exact ⟨_, _, process_refund_ok_of db id reason now o h hp⟩

/-- C6 witness: a missing id gives not-found; refunding a "pending_payment"
order and refunding an already-"refunded" order both give the identical
order-not-paid error. -/
theorem claim_C6_refund_requires_paid_witness :
    process_refund [] "missing" none "t3" = Except.error orderNotFoundError ∧
    process_refund [("order-1", mkOrder "order-1" "a red fox" "u" "d" "t0" none)]
        "order-1" (some "r") "t3" =
      Except.error orderNotPaidError ∧
    process_refund [("order-1", c4RefundedOrder)] "order-1" (some "r") "t3" =
      Except.error orderNotPaidError :=
  ⟨(claim_C6_refund_requires_paid [] "missing" none "t3").1 rfl,
   ((claim_C6_refund_requires_paid
        [("order-1", mkOrder "order-1" "a red fox" "u" "d" "t0" none)]
        "order-1" (some "r") "t3").2.1
      (mkOrder "order-1" "a red fox" "u" "d" "t0" none)
      (lookup_singleton _ _) (by decide)).1,
   ((claim_C6_refund_requires_paid [("order-1", c4RefundedOrder)]
        "order-1" (some "r") "t3").2.1
      c4RefundedOrder (lookup_singleton _ _) (by decide)).1⟩

/-- A paid order carrying billing data, for exercising `get_order_status`. -/
def c7orderA : Order :=
  { c4RefundedOrder with
    status := "paid"
    customer_name := some "Alice"
    billing_address := some [("street", "1 Main St")]
    refunded_at := none
    refund_reason := none }

/-- The same order with a different billing address. -/
def c7orderB : Order :=
  { c7orderA with billing_address := some [("street", "2 Oak Ave")] }

/-- C7 counterexample: two stored orders that differ in their (populated)
billing field produce the very same `get_order_status` response, so the
endpoint cannot be returning every stored field — the billing fields are not
part of the returned record. -/
theorem claim_C7_counterexample_billing_omitted :
    c7orderA.billing_address ≠ c7orderB.billing_address ∧
    get_order_status [("order-1", c7orderA)] "order-1" =
      get_order_status [("order-1", c7orderB)] "order-1" := by
  exact ⟨by decide, by decide⟩

/-- C7 amended: `get_order_status` returns the not-found error for a missing
id, and otherwise a fixed nine-field projection of the stored record —
order_id, status, price, created_at, design_prompt, customer_email,
amount_paid, payment_id, paid_at — with no authorization check; the stored
image fields, customer_name, billing_address and refund fields are omitted
(the counterexample shows billing data never reaches the response). -/
theorem claim_C7_amended_fixed_projection :
    ∀ (db : OrdersDb) (id : String),
      (db.lookup id = none →
        get_order_status db id = Except.error orderNotFoundError) ∧
      (∀ o, db.lookup id = some o →
        get_order_status db id =
          Except.ok
            { order_id := id
              status := o.status
              price := o.price
              created_at := o.created_at
              design_prompt := o.design_prompt
              customer_email := o.customer_email
              amount_paid := o.amount_paid
              payment_id := o.payment_id
              paid_at := o.paid_at }) := by
  intro db id
  constructor
  · intro h
    simp only [get_order_status, h]
  · intro o h
    simp only [get_order_status, h]

/-- C7 amended witness: the paid order with billing data yields exactly the
nine-field projection, and an empty store yields not-found. -/
theorem claim_C7_amended_fixed_projection_witness :
    get_order_status [("order-1", c7orderA)] "order-1" =
      Except.ok
        { order_id := "order-1"
          status := c7orderA.status
          price := c7orderA.price
          created_at := c7orderA.created_at
          design_prompt := c7orderA.design_prompt
          customer_email := c7orderA.customer_email
          amount_paid := c7orderA.amount_paid
          payment_id := c7orderA.payment_id
          paid_at := c7orderA.paid_at } ∧
    get_order_status [] "missing" = Except.error orderNotFoundError :=
  ⟨(claim_C7_amended_fixed_projection [("order-1", c7orderA)] "order-1").2 c7orderA
      (lookup_singleton _ _),
   (claim_C7_amended_fixed_projection [] "missing").1 rfl⟩

/-- One payment or refund step leaves every stored order's price field
untouched. -/
theorem price_preserved_step (db : OrdersDb) (op : Op) (hop : op.isPayOrRefund)
    (id : String) (o : Order) (h : db.lookup id = some o) :
    ∃ o', (applyOp db op).lookup id = some o' ∧ o'.price = o.price := by
  cases op with
  | design oid p u d c e => cases hop
  | pay req now =>
    cases hp : process_payment db req now with
    | error e =>
      simp only [applyOp, hp]
      exact ⟨o, h, rfl⟩
    | ok r =>
      rcases r with ⟨db2, resp⟩
      simp only [applyOp, hp]
      obtain ⟨u, hu, hdb2, -⟩ := process_payment_ok_inv db req now db2 resp hp
      subst hdb2
      by_cases hid : id = req.order_id
      · subst hid
        rw [h] at hu
        cases hu
        exact ⟨paymentCommit o req now, lookup_updateOrder_self db _ o _ h, rfl⟩
      · refine ⟨o, ?_, rfl⟩
        rw [lookup_updateOrder_ne db _ id _ hid]
        exact h
  | refund rid reason now =>
    cases hp : process_refund db rid reason now with
    | error e =>
      simp only [applyOp, hp]
      exact ⟨o, h, rfl⟩
    | ok r =>
      rcases r with ⟨db2, resp⟩
      simp only [applyOp, hp]
      obtain ⟨u, hu, -, hdb2⟩ := process_refund_ok_inv db rid reason now db2 resp hp
      subst hdb2
      by_cases hid : id = rid
      · subst hid
        rw [h] at hu
        cases hu
        exact ⟨refundCommit o reason now, lookup_updateOrder_self db _ o _ h, rfl⟩
      · refine ⟨o, ?_, rfl⟩
        rw [lookup_updateOrder_ne db _ id _ hid]
        exact h

/-- A sequence of payment and refund steps preserves every stored order's
price field. -/
theorem price_preserved_ops (ops : List Op) (hops : ∀ op ∈ ops, op.isPayOrRefund) :
    ∀ (db : OrdersDb) (id : String) (o : Order), db.lookup id = some o →
      ∃ o', (applyOps db ops).lookup id = some o' ∧ o'.price = o.price := by
  induction ops with
  | nil =>
    intro db id o h
    exact ⟨o, h, rfl⟩
  | cons op rest ih =>
    intro db id o h
    obtain ⟨o1, h1, hp1⟩ := price_preserved_step db op (hops op (by simp)) id o h
    obtain ⟨o2, h2, hp2⟩ :=
      ih (fun x hx => hops x (by simp [hx])) (applyOp db op) id o1 h1
    exact ⟨o2, h2, hp2.trans hp1⟩

/-- C8: an order created fresh carries the quoted price 4.99, and after any
subsequent sequence of payment and refund calls the stored price still equals
that creation-time value. -/
theorem claim_C8_quoted_price_immutable :
    ∀ (oid p u d c : String) (e : Option String) (db : OrdersDb) (ops : List Op),
      db.lookup oid = none →
      (∀ op ∈ ops, op.isPayOrRefund) →
      ∃ o',
        (applyOps (applyOp db (Op.design oid p u d c e)) ops).lookup oid = some o' ∧
        o'.price = 4.99 := by
  intro oid p u d c e db ops hfresh hops
  have h0 : (applyOp db (Op.design oid p u d c e)).lookup oid =
      some (mkOrder oid p u d c e) := by
    simp only [applyOp, insertOrder, hfresh, Option.isSome_none, Bool.false_eq_true,
      if_false]
    rw [lookup_append_none db _ oid hfresh]
    exact lookup_singleton _ _
  obtain ⟨o', h', hp⟩ := price_preserved_ops ops hops _ oid _ h0
  exact ⟨o', h', hp⟩

/-- C8 witness: create an order, pay it, refund it, pay it again — the stored
price is still 4.99. -/
theorem claim_C8_quoted_price_immutable_witness :
    ∃ o',
      (applyOps (applyOp [] (Op.design "order-1" "a red fox" "http://img" "abc" "t0" none))
          [Op.pay c4req "t1", Op.refund "order-1" (some "r") "t2",
            Op.pay c4req "t3"]).lookup "order-1" = some o' ∧
      o'.price = 4.99 :=
  claim_C8_quoted_price_immutable "order-1" "a red fox" "http://img" "abc" "t0" none []
    [Op.pay c4req "t1", Op.refund "order-1" (some "r") "t2", Op.pay c4req "t3"]
    rfl
    (by
      intro op hop
      simp only [List.mem_cons, List.not_mem_nil, or_false] at hop
      rcases hop with rfl | rfl | rfl <;> trivial)

/-- C9: a refund on an existing "paid" order succeeds, sets the status to
"refunded", stamps `refunded_at` with the current time and `refund_reason`
with the supplied reason, and returns as refund amount the recorded
`amount_paid` when a payment set one, else the stored price. -/
theorem claim_C9_refund_effect :
    ∀ (db : OrdersDb) (id : String) (reason : Option String) (now : String) (o : Order),
      db.lookup id = some o →
      o.status = "paid" →
      ∃ db' resp o',
        process_refund db id reason now = Except.ok (db', resp) ∧
        db'.lookup id = some o' ∧
        o'.status = "refunded" ∧
        o'.refunded_at = some now ∧
        o'.refund_reason = reason ∧
        resp.refund_amount = o.amount_paid.getD o.price ∧
        (∀ a, o.amount_paid = some a → resp.refund_amount = a) ∧
        (o.amount_paid = none → resp.refund_amount = o.price) := by
  intro db id reason now o h hp
  refine ⟨_, _, refundCommit o reason now,
    process_refund_ok_of db id reason now o h hp,
    lookup_updateOrder_self db _ o _ h, rfl, rfl, rfl, rfl, ?_, ?_⟩
  · intro a ha
    simp [refundCommit, ha]
  · intro ha
    simp [refundCommit, ha]

/-- C9 witness: refunding a paid order that recorded `amount_paid = 3`
succeeds, stamps the refund fields and returns refund amount 3. -/
theorem claim_C9_refund_effect_witness :
    ∃ db' resp o',
      process_refund [("order-1", c7orderA)] "order-1" (some "test") "t3" =
        Except.ok (db', resp) ∧
      db'.lookup "order-1" = some o' ∧
      o'.status = "refunded" ∧
      o'.refunded_at = some "t3" ∧
      o'.refund_reason = some "test" ∧
      resp.refund_amount = c7orderA.amount_paid.getD c7orderA.price ∧
      (∀ a, c7orderA.amount_paid = some a → resp.refund_amount = a) ∧
      (c7orderA.amount_paid = none → resp.refund_amount = c7orderA.price) :=
  claim_C9_refund_effect [("order-1", c7orderA)] "order-1" (some "test") "t3" c7orderA
    (lookup_singleton _ _) (by decide)

end TShirtAgent
